import Mathlib

/-!
Shallow embedding of `EnergyMonitorCheck.py` (EnergyWatch repository).

Conventions of the embedding:
* Python floats are modelled as `ℚ`, Python ints as `ℤ` (or `ℕ` for counts),
  timestamps as `ℚ` (seconds, `time.time()`) or `ℤ` (seconds since epoch for
  the `datetime` window arithmetic).
* The Octopus readings (`interval_start`, `interval_end`, `consumption`) are
  modelled by the structure `Reading`; `interval_start` is an abstract totally
  ordered timestamp (`ℤ`).
* Fallible external calls (the Twilio `messages.create` dispatch) are modelled
  by a boolean parameter saying whether the call completes successfully; a
  `False` value corresponds to the call raising an exception that the `except`
  block catches.
* `analyze_usage_pattern` sorts the caller's list **in place**
  (`consumption_data.sort(...)`), so the embedding returns the final state of
  the caller's list together with the analysis dictionary.
* Python's `None` return value of `send_alert` is modelled as
  `(none : Option Bool)` so that claims about a boolean return value can be
  stated.
-/

/-- One half-hourly consumption reading, as returned by the Octopus API. -/
structure Reading where
  interval_start : ℤ
  interval_end : ℤ
  consumption : ℚ
deriving DecidableEq, Repr

/-- The analysis dictionary produced by `analyze_usage_pattern`.  Keys that a
branch does not populate are `none` (the Python dict simply lacks them). -/
structure Analysis where
  is_charging : Bool
  reason : String
  average_power_kw : Option ℚ := none
  peak_power_kw : Option ℚ := none
  high_usage_periods : Option ℕ := none
  total_periods_analyzed : Option ℕ := none
  latest_reading_time : Option ℤ := none
deriving DecidableEq, Repr

/-- The descending-by-`interval_start` order used by
`consumption_data.sort(key=lambda x: x['interval_start'], reverse=True)`. -/
def byStartDesc (a b : Reading) : Prop :=
  b.interval_start ≤ a.interval_start

instance : DecidableRel byStartDesc := fun a b =>
  inferInstanceAs (Decidable (b.interval_start ≤ a.interval_start))

instance : IsTotal Reading byStartDesc :=
  ⟨fun a b => le_total b.interval_start a.interval_start⟩

instance : IsTrans Reading byStartDesc :=
  ⟨fun _ _ _ h₁ h₂ => le_trans h₂ h₁⟩

/-- Round-half-to-even of a rational to an integer, the rounding mode of
Python's `round` and of `format(x, '.1f')`. -/
def roundHalfEven (q : ℚ) : ℤ :=
  let f := ⌊q⌋
  if q - f < 1/2 then f
  else if 1/2 < q - f then f + 1
  else if f % 2 = 0 then f else f + 1

/-- Python's `round(x, 2)`. -/
def round2 (q : ℚ) : ℚ :=
  (roundHalfEven (q * 100) : ℚ) / 100

/-- Python's `f"{x:.1f}"` formatting, modelled over `ℚ`. -/
def fmtOneDecimal (q : ℚ) : String :=
  let n : ℤ := roundHalfEven (q * 10)
  let sign := if n < 0 then "-" else ""
  let m := n.natAbs
  sign ++ toString (m / 10) ++ "." ++ toString (m % 10)

/-- Python's `max` over a list of rationals.  The `[]` branch is never reached
by the program (the window has at least 2 readings there); Python would raise. -/
def pyMax : List ℚ → ℚ
  | [] => 0
  | [x] => x
  | x :: y :: xs => max x (pyMax (y :: xs))

/-- Lines 101-138 of `EnergyMonitor.analyze_usage_pattern`, starting from the
already-sorted list (the value of the caller's list after the in-place
`consumption_data.sort(key=..., reverse=True)`). -/
def analyze_sorted (sorted : List Reading)
    (baseline_usage high_usage_threshold : ℚ) (sustained_minutes : ℤ) :
    List Reading × Analysis :=
  let recent_readings := sorted.take 48
  if recent_readings.length < 2 then
    (sorted, { is_charging := false, reason := "Insufficient data" })
  else
    let total_consumption := (recent_readings.map (·.consumption)).sum
    let time_period_hours := (recent_readings.length : ℚ) * 0.5
    let day_power_kw := (total_consumption / time_period_hours) * 24
    let high_usage_count :=
      (recent_readings.filter (fun r => r.consumption / 0.5 > baseline_usage)).length
    let is_charging :=
      decide (day_power_kw > high_usage_threshold ∧
        (high_usage_count : ℤ) ≥ sustained_minutes.fdiv 30)
    (sorted,
      { is_charging := is_charging
        reason :=
          if is_charging then
            "High sustained usage detected: " ++ fmtOneDecimal day_power_kw ++ "kW average"
          else
            "Usage within normal range: " ++ fmtOneDecimal day_power_kw ++ "kW average"
        average_power_kw := some (round2 day_power_kw)
        peak_power_kw :=
          some (round2 (pyMax (recent_readings.map (fun r => r.consumption / 0.5))))
        high_usage_periods := some high_usage_count
        total_periods_analyzed := some recent_readings.length
        latest_reading_time :=
          match recent_readings with
          | [] => none
          | r :: _ => some r.interval_start })

/-- `EnergyMonitor.analyze_usage_pattern`.  The `if not consumption_data`
guard is the match on `[]`; on a non-empty list the caller's list is first
sorted in place, so the result carries the final state of the caller's list
(the sorted list) together with the analysis dictionary. -/
def analyze_usage_pattern (consumption_data : List Reading)
    (baseline_usage high_usage_threshold : ℚ) (sustained_minutes : ℤ) :
    List Reading × Analysis :=
  match consumption_data with
  | [] => ([], { is_charging := false, reason := "No data available" })
  | a :: rest =>
    analyze_sorted (List.insertionSort byStartDesc (a :: rest))
      baseline_usage high_usage_threshold sustained_minutes

/-- Outcome of one `send_alert` call: the new `last_alert_time`, the Python
return value (always `None`, modelled `none`), and whether an SMS was
actually dispatched (the Twilio call was made and succeeded). -/
structure SendResult where
  last_alert_time : Option ℚ
  returned : Option Bool
  dispatched : Bool
deriving DecidableEq, Repr

/-- `EnergyMonitor.send_alert`.  `twilio_send_ok` models whether the
`twilio_client.messages.create` call completes without raising; when it
raises, the surrounding `except` catches and the method returns `None` with
the state untouched.  The cooldown guard is Python's
`if self.last_alert_time and current_time - self.last_alert_time < self.alert_cooldown`,
where a float `0.0` is falsy. -/
def send_alert (alert_cooldown : ℚ) (last_alert_time : Option ℚ)
    (current_time : ℚ) (twilio_send_ok : Bool) (_analysis : Analysis) :
    SendResult :=
  match last_alert_time with
  | some t =>
    if t ≠ 0 ∧ current_time - t < alert_cooldown then
      { last_alert_time := some t, returned := none, dispatched := false }
    else if twilio_send_ok then
      { last_alert_time := some current_time, returned := none, dispatched := true }
    else
      { last_alert_time := some t, returned := none, dispatched := false }
  | none =>
    if twilio_send_ok then
      { last_alert_time := some current_time, returned := none, dispatched := true }
    else
      { last_alert_time := none, returned := none, dispatched := false }

/-- The notification step of `EnergyMonitor.run_check`
(`if analysis['is_charging']: self.send_alert(analysis)`): `send_alert` is
invoked only when the analysis reports charging; otherwise nothing runs and
the notifier state is untouched. -/
def maybe_notify (alert_cooldown : ℚ) (last_alert_time : Option ℚ)
    (current_time : ℚ) (twilio_send_ok : Bool) (analysis : Analysis) :
    SendResult :=
  if analysis.is_charging then
    send_alert alert_cooldown last_alert_time current_time twilio_send_ok analysis
  else
    { last_alert_time := last_alert_time, returned := none, dispatched := false }

/-- The value `EnergyMonitor.run_check` returns, as a function of the fetched
consumption data: `None` when the fetch came back empty (the classifier is
never called then), otherwise the analysis dictionary. -/
def run_check (consumption_data : List Reading)
    (baseline_usage high_usage_threshold : ℚ) (sustained_minutes : ℤ) :
    Option Analysis :=
  match consumption_data with
  | [] => none
  | a :: rest =>
    some (analyze_usage_pattern (a :: rest) baseline_usage
      high_usage_threshold sustained_minutes).2

/-- Truncation of a timestamp (seconds) to the start of its day:
`datetime(end_date.year, end_date.month, end_date.day)` applied to
`end_date`.  `%` on `ℤ` is the nonnegative Euclidean remainder, so this is
the floor to a multiple of 86400. -/
def truncToDay (t : ℤ) : ℤ :=
  t - t % 86400

/-- The `[period_from, period_to)` window computed by
`EnergyMonitor.get_consumption_data`: `end_date = today - 24h`,
`end_time = datetime(end_date.year, end_date.month, end_date.day)`,
`start_time = end_time - hours_back hours`.  Times in seconds. -/
def get_consumption_window (now : ℤ) (hours_back : ℤ) : ℤ × ℤ :=
  let end_time := truncToDay (now - 24 * 3600)
  let start_time := end_time - hours_back * 3600
  (start_time, end_time)

/-- Digit-run validation for Python numeric literals: the tail of a run,
scanned after an initial digit.  An underscore must stand between two
digits (PEP 515). -/
def digitsTail (l : List Char) : Bool :=
  match l with
  | [] => true
  | '_' :: rest =>
    match rest with
    | [] => false
    | c :: rest2 => c.isDigit && digitsTail rest2
  | c :: rest => c.isDigit && digitsTail rest

/-- A valid non-empty digit run (digits with optional single underscores
between them). -/
def digitsOk (l : List Char) : Bool :=
  match l with
  | [] => false
  | c :: rest => c.isDigit && digitsTail rest

/-- A valid or empty digit run. -/
def digitsOk0 (l : List Char) : Bool :=
  l.isEmpty || digitsOk l

/-- Decimal value of a digit run (underscores already filtered out). -/
def natOfDigits (l : List Char) : ℕ :=
  l.foldl (fun acc c => 10 * acc + (c.toNat - 48)) 0

/-- The ASCII whitespace Python strips around a numeric string. -/
def isPySpace (c : Char) : Bool :=
  c = ' ' || c = '\t' || c = '\n' || c = '\r' || c = '\x0b' || c = '\x0c'

/-- A Python string with surrounding whitespace stripped, as a character
list. -/
def pyStrip (s : String) : List Char :=
  ((s.toList.dropWhile isPySpace).reverse.dropWhile isPySpace).reverse

/-- The value of a Python float: finite (represented exactly as the decimal
rational, binary rounding aside), signed infinity, or nan. -/
inductive PyFloatVal where
  | finite (q : ℚ)
  | infinite (neg : Bool)
  | nan
deriving DecidableEq, Repr

/-- Exponent digits of a float literal: validates the run and scales the
mantissa by `10 ^ ±e`. -/
def pyFloatExpVal (m : ℚ) (l : List Char) (negExp : Bool) : Option PyFloatVal :=
  if digitsOk l then
    let e : ℤ := (natOfDigits (l.filter (fun c => c ≠ '_')) : ℤ)
    some (PyFloatVal.finite (m * (10 : ℚ) ^ (if negExp then -e else e)))
  else none

/-- Optional sign in front of the exponent digits. -/
def pyFloatExpSign (m : ℚ) (l : List Char) : Option PyFloatVal :=
  match l with
  | '+' :: rest => pyFloatExpVal m rest false
  | '-' :: rest => pyFloatExpVal m rest true
  | rest => pyFloatExpVal m rest false

/-- Mantissa read (integer part `ip`, fraction part `fp`); `rest` must be
empty or an `e`/`E` exponent. -/
def pyFloatExp (ip fp rest : List Char) (neg : Bool) : Option PyFloatVal :=
  let fpd := fp.filter (fun c => c ≠ '_')
  let mant := (natOfDigits (ip.filter (fun c => c ≠ '_')) : ℚ) +
    (natOfDigits fpd : ℚ) / (10 : ℚ) ^ fpd.length
  let signed := if neg then -mant else mant
  match rest with
  | [] => some (PyFloatVal.finite signed)
  | 'e' :: rest2 => pyFloatExpSign signed rest2
  | 'E' :: rest2 => pyFloatExpSign signed rest2
  | _ => none

/-- Body of `float(s)` after stripping and the optional leading sign:
`inf`, `infinity` or `nan` case-insensitively, or
`[digits][.digits][e/E [sign] digits]` with at least one mantissa digit. -/
def pyFloatBody (l : List Char) (neg : Bool) : Option PyFloatVal :=
  let low := l.map Char.toLower
  if low = "inf".toList || low = "infinity".toList then
    some (PyFloatVal.infinite neg)
  else if low = "nan".toList then some PyFloatVal.nan
  else
    let (ip, rest1) := l.span (fun c => c.isDigit || c = '_')
    match rest1 with
    | '.' :: rest2 =>
      let (fp, rest3) := rest2.span (fun c => c.isDigit || c = '_')
      if (digitsOk0 ip && digitsOk0 fp) && !(ip.isEmpty && fp.isEmpty) then
        pyFloatExp ip fp rest3 neg
      else none
    | _ => if digitsOk ip then pyFloatExp ip [] rest1 neg else none

/-- Python's builtin `float(s)` on ASCII inputs (unicode digits and spaces
aside), `none` where Python raises `ValueError`. -/
def pyFloat (s : String) : Option PyFloatVal :=
  match pyStrip s with
  | '+' :: rest => pyFloatBody rest false
  | '-' :: rest => pyFloatBody rest true
  | l => pyFloatBody l false

/-- Python's builtin `int(s)` in base 10 on ASCII inputs, `none` where
Python raises `ValueError`. -/
def pyInt (s : String) : Option ℤ :=
  match pyStrip s with
  | '+' :: rest =>
    if digitsOk rest then
      some ((natOfDigits (rest.filter (fun c => c ≠ '_')) : ℤ))
    else none
  | '-' :: rest =>
    if digitsOk rest then
      some (-(natOfDigits (rest.filter (fun c => c ≠ '_')) : ℤ))
    else none
  | l =>
    if digitsOk l then
      some ((natOfDigits (l.filter (fun c => c ≠ '_')) : ℤ))
    else none

/-- The message of the `ValueError` that `float(s)` raises. -/
def float_value_error (s : String) : String :=
  "could not convert string to float: '" ++ s ++ "'"

/-- The message of the `ValueError` that `int(s)` raises. -/
def int_value_error (s : String) : String :=
  "invalid literal for int() with base 10: '" ++ s ++ "'"

/-- The environment `load_config` reads, each variable as `os.getenv`
returns it (`none` when unset).  The four tunables are raw strings; their
`float()`/`int()` parsing happens inside `load_config` while the config
dict is built. -/
structure Env where
  octopus_api_key : Option String
  meter_mpan : Option String
  meter_serial : Option String
  twilio_account_sid : Option String
  twilio_auth_token : Option String
  twilio_from_number : Option String
  twilio_to_number : Option String
  high_usage_threshold_kw : Option String := none
  sustained_minutes : Option String := none
  baseline_usage_kw : Option String := none
  alert_cooldown_hours : Option String := none
deriving DecidableEq, Repr

/-- The `config` dict `load_config` builds once all four tunables have
parsed. -/
structure Config where
  octopus_api_key : Option String
  meter_mpan : Option String
  meter_serial : Option String
  twilio_account_sid : Option String
  twilio_auth_token : Option String
  twilio_from_number : Option String
  twilio_to_number : Option String
  high_usage_threshold_kw : PyFloatVal
  sustained_minutes : ℤ
  baseline_usage_kw : PyFloatVal
  alert_cooldown_hours : ℤ
deriving DecidableEq, Repr

/-- `required_keys` of `load_config`. -/
def required_keys : List String :=
  ["octopus_api_key", "meter_mpan", "meter_serial",
   "twilio_account_sid", "twilio_auth_token",
   "twilio_from_number", "twilio_to_number"]

/-- The config dict's entry for a credential key: `os.getenv` writes the
environment value straight into the dict, so `config.get(key)` on a
required key reads the corresponding environment field. -/
def config_get (env : Env) (k : String) : Option String :=
  if k = "octopus_api_key" then env.octopus_api_key
  else if k = "meter_mpan" then env.meter_mpan
  else if k = "meter_serial" then env.meter_serial
  else if k = "twilio_account_sid" then env.twilio_account_sid
  else if k = "twilio_auth_token" then env.twilio_auth_token
  else if k = "twilio_from_number" then env.twilio_from_number
  else if k = "twilio_to_number" then env.twilio_to_number
  else none

/-- `[key for key in required_keys if not config.get(key)]`: a key is missing
when its value is `None` or the empty string (both falsy). -/
def missing_keys (env : Env) : List String :=
  required_keys.filter (fun k => (config_get env k).getD "" = "")

/-- Whether the four `float()`/`int()` calls in the dict literal all
succeed (`float(os.getenv(VAR, default))` with the source's default
strings). -/
def tunables_parse (env : Env) : Bool :=
  (pyFloat (env.high_usage_threshold_kw.getD "30.0")).isSome &&
  (pyInt (env.sustained_minutes.getD "30")).isSome &&
  (pyFloat (env.baseline_usage_kw.getD "0.8")).isSome &&
  (pyInt (env.alert_cooldown_hours.getD "4")).isSome

/-- `load_config`: the dict literal evaluates its four `float()`/`int()`
calls in source order, so a malformed tunable raises its parse `ValueError`
before the credential validation runs; afterwards the missing required keys
are collected and, if any, reported in an enumerated `ValueError`, else the
config is returned.  `Except.error` models a raised `ValueError` with its
message. -/
def load_config (env : Env) : Except String Config :=
  match pyFloat (env.high_usage_threshold_kw.getD "30.0") with
  | none =>
    Except.error (float_value_error (env.high_usage_threshold_kw.getD "30.0"))
  | some hu =>
    match pyInt (env.sustained_minutes.getD "30") with
    | none => Except.error (int_value_error (env.sustained_minutes.getD "30"))
    | some sm =>
      match pyFloat (env.baseline_usage_kw.getD "0.8") with
      | none =>
        Except.error (float_value_error (env.baseline_usage_kw.getD "0.8"))
      | some bu =>
        match pyInt (env.alert_cooldown_hours.getD "4") with
        | none =>
          Except.error (int_value_error (env.alert_cooldown_hours.getD "4"))
        | some ac =>
          let config : Config :=
            { octopus_api_key := env.octopus_api_key
              meter_mpan := env.meter_mpan
              meter_serial := env.meter_serial
              twilio_account_sid := env.twilio_account_sid
              twilio_auth_token := env.twilio_auth_token
              twilio_from_number := env.twilio_from_number
              twilio_to_number := env.twilio_to_number
              high_usage_threshold_kw := hu
              sustained_minutes := sm
              baseline_usage_kw := bu
              alert_cooldown_hours := ac }
          let missing := missing_keys env
          if missing.isEmpty then Except.ok config
          else Except.error
            ("Missing required configuration: " ++
              String.intercalate ", " missing)

/-- The process exit status produced by `exit(main())`: `main` catches any
exception (in particular a `ValueError` from `load_config`) and returns 1;
`rest_raises` models whether anything after successful configuration raises. -/
def main_exit_code (env : Env) (rest_raises : Bool) : ℕ :=
  match load_config env with
  | Except.error _ => 1
  | Except.ok _ => if rest_raises then 1 else 0

/-- A concrete environment with two credential problems (`meter_mpan` unset,
`meter_serial` empty), used to exercise the validation path. -/
def envMissingExample : Env :=
  { octopus_api_key := some "k"
    meter_mpan := none
    meter_serial := some ""
    twilio_account_sid := some "a"
    twilio_auth_token := some "b"
    twilio_from_number := some "c"
    twilio_to_number := some "d" }

/-- A concrete environment with every credential present but
`SUSTAINED_MINUTES` set to a string `int()` cannot parse. -/
def envBadTunable : Env :=
  { octopus_api_key := some "k"
    meter_mpan := some "m"
    meter_serial := some "s"
    twilio_account_sid := some "a"
    twilio_auth_token := some "b"
    twilio_from_number := some "c"
    twilio_to_number := some "d"
    sustained_minutes := some "abc" }

/-- A concrete analysis result with `is_charging = true`, as `run_check`
passes to `send_alert`. -/
def chargingExample : Analysis :=
  { is_charging := true
    reason := "High sustained usage detected: 48.0kW average"
    average_power_kw := some 48
    peak_power_kw := some 2
    high_usage_periods := some 2
    total_periods_analyzed := some 2
    latest_reading_time := some 1 }

/-- A concrete analysis result with `is_charging = false`. -/
def idleExample : Analysis :=
  { is_charging := false
    reason := "Usage within normal range: 14.4kW average" }

/-! ## Helper lemmas about the descending sort -/

/-- Two lists of readings that are permutations of one another, both sorted
descending by `interval_start`, with pairwise-distinct `interval_start`
values, are equal. -/
lemma sorted_perm_nodup_eq :
    ∀ {l₁ l₂ : List Reading}, l₁.Perm l₂ →
      l₁.Sorted byStartDesc → l₂.Sorted byStartDesc →
      (l₁.map Reading.interval_start).Nodup → l₁ = l₂ := by
  intro l₁
  induction l₁ with
  | nil =>
    intro l₂ hp _ _ _
    exact hp.symm.eq_nil.symm
  | cons a t ih =>
    intro l₂ hp hs₁ hs₂ hnd
    cases l₂ with
    | nil => exact absurd hp.eq_nil (List.cons_ne_nil a t)
    | cons b t₂ =>
      by_cases hab : a = b
      · subst hab
        have hnd' : (t.map Reading.interval_start).Nodup :=
          (List.nodup_cons.mp (by simpa using hnd)).2
        rw [ih hp.cons_inv hs₁.of_cons hs₂.of_cons hnd']
      · exfalso
        have ha2 : a ∈ t₂ := by
          rcases List.mem_cons.mp (hp.subset (List.mem_cons_self a t)) with h | h
          · exact absurd h hab
          · exact h
        have hb1 : b ∈ t := by
          rcases List.mem_cons.mp (hp.symm.subset (List.mem_cons_self b t₂)) with h | h
          · exact absurd h.symm hab
          · exact h
        have h₁ : a.interval_start ≤ b.interval_start :=
          List.rel_of_sorted_cons hs₂ a ha2
        have h₂ : b.interval_start ≤ a.interval_start :=
          List.rel_of_sorted_cons hs₁ b hb1
        have hmem : a.interval_start ∈ t.map Reading.interval_start :=
          le_antisymm h₁ h₂ ▸ List.mem_map_of_mem Reading.interval_start hb1
        exact (List.nodup_cons.mp (by simpa using hnd)).1 hmem

/-- Sorting two permuted lists with distinct `interval_start` keys yields the
same list. -/
lemma insertionSort_eq_of_perm {l₁ l₂ : List Reading} (hp : l₁.Perm l₂)
    (hnd : (l₁.map Reading.interval_start).Nodup) :
    List.insertionSort byStartDesc l₁ = List.insertionSort byStartDesc l₂ := by
  apply sorted_perm_nodup_eq
  · exact (List.perm_insertionSort _ l₁).trans (hp.trans (List.perm_insertionSort _ l₂).symm)
  · exact List.sorted_insertionSort _ l₁
  · exact List.sorted_insertionSort _ l₂
  · exact (((List.perm_insertionSort _ l₁).map Reading.interval_start).nodup_iff).mpr hnd

/-- Reduction of `load_config` once all four tunable parses succeed. -/
lemma load_config_parsed (env : Env) (hu bu : PyFloatVal) (sm ac : ℤ)
    (h1 : pyFloat (env.high_usage_threshold_kw.getD "30.0") = some hu)
    (h2 : pyInt (env.sustained_minutes.getD "30") = some sm)
    (h3 : pyFloat (env.baseline_usage_kw.getD "0.8") = some bu)
    (h4 : pyInt (env.alert_cooldown_hours.getD "4") = some ac) :
    load_config env =
      if (missing_keys env).isEmpty then
        Except.ok
          { octopus_api_key := env.octopus_api_key
            meter_mpan := env.meter_mpan
            meter_serial := env.meter_serial
            twilio_account_sid := env.twilio_account_sid
            twilio_auth_token := env.twilio_auth_token
            twilio_from_number := env.twilio_from_number
            twilio_to_number := env.twilio_to_number
            high_usage_threshold_kw := hu
            sustained_minutes := sm
            baseline_usage_kw := bu
            alert_cooldown_hours := ac }
      else
        Except.error
          ("Missing required configuration: " ++
            String.intercalate ", " (missing_keys env)) := by
  unfold load_config
  simp only [h1, h2, h3, h4]

/-- When some tunable fails its `float()`/`int()` parse, `load_config`
raises (returns an error). -/
lemma load_config_parse_fail (env : Env) (h : tunables_parse env = false) :
    ∃ m, load_config env = Except.error m := by
  cases h1 : pyFloat (env.high_usage_threshold_kw.getD "30.0") with
  | none =>
    refine ⟨float_value_error (env.high_usage_threshold_kw.getD "30.0"), ?_⟩
    unfold load_config
    rw [h1]
  | some hu =>
    cases h2 : pyInt (env.sustained_minutes.getD "30") with
    | none =>
      refine ⟨int_value_error (env.sustained_minutes.getD "30"), ?_⟩
      unfold load_config
      simp only [h1, h2]
    | some sm =>
      cases h3 : pyFloat (env.baseline_usage_kw.getD "0.8") with
      | none =>
        refine ⟨float_value_error (env.baseline_usage_kw.getD "0.8"), ?_⟩
        unfold load_config
        simp only [h1, h2, h3]
      | some bu =>
        cases h4 : pyInt (env.alert_cooldown_hours.getD "4") with
        | none =>
          refine ⟨int_value_error (env.alert_cooldown_hours.getD "4"), ?_⟩
          unfold load_config
          simp only [h1, h2, h3, h4]
        | some ac =>
          exfalso
          unfold tunables_parse at h
          rw [h1, h2, h3, h4] at h
          simp at h

/-! ## Claims -/

/-- C1: For every reading sequence that has at least 2 readings after
truncation to the 48 most recent, `analyze_usage_pattern` sets `is_charging`
to true if and only if `day_power_kw > threshold_kw` and
`high_usage_count ≥ floor(sustained_minutes / 30)`, where
`day_power_kw = (sum of consumption over the window / (count * 0.5)) * 24`
and `high_usage_count` counts the windowed readings whose instantaneous power
`consumption / 0.5` is strictly greater than `baseline_kw`. -/
theorem claim_C1_is_charging_iff (data : List Reading)
    (baseline_usage high_usage_threshold : ℚ) (sustained_minutes : ℤ)
    (h : 2 ≤ ((List.insertionSort byStartDesc data).take 48).length) :
    (analyze_usage_pattern data baseline_usage high_usage_threshold
        sustained_minutes).2.is_charging = true ↔
      (((((List.insertionSort byStartDesc data).take 48).map (·.consumption)).sum /
          ((((List.insertionSort byStartDesc data).take 48).length : ℚ) * 0.5)) * 24 >
        high_usage_threshold ∧
       ((((List.insertionSort byStartDesc data).take 48).filter
           (fun r => r.consumption / 0.5 > baseline_usage)).length : ℤ) ≥
         sustained_minutes.fdiv 30) := by
  cases data with
  | nil => simp at h
  | cons a rest =>
    simp only [analyze_usage_pattern, analyze_sorted]
    rw [if_neg (by omega)]
    simp [decide_eq_true_iff]

/-- Witness for C1 at two concrete readings. -/
theorem claim_C1_witness :
    2 ≤ ((List.insertionSort byStartDesc
        [(⟨0, 1, 1⟩ : Reading), ⟨1, 2, 1⟩]).take 48).length ∧
    ((analyze_usage_pattern [(⟨0, 1, 1⟩ : Reading), ⟨1, 2, 1⟩]
        0.5 30 60).2.is_charging = true ↔
      (((((List.insertionSort byStartDesc
            [(⟨0, 1, 1⟩ : Reading), ⟨1, 2, 1⟩]).take 48).map (·.consumption)).sum /
          ((((List.insertionSort byStartDesc
            [(⟨0, 1, 1⟩ : Reading), ⟨1, 2, 1⟩]).take 48).length : ℚ) * 0.5)) * 24 >
        30 ∧
       ((((List.insertionSort byStartDesc
            [(⟨0, 1, 1⟩ : Reading), ⟨1, 2, 1⟩]).take 48).filter
           (fun r => r.consumption / 0.5 > 0.5)).length : ℤ) ≥
         Int.fdiv 60 30)) :=
  ⟨by decide, claim_C1_is_charging_iff _ 0.5 30 60 (by decide)⟩

/-- C7: On an empty reading list `analyze_usage_pattern` returns
`{is_charging: false, reason: "No data available"}` with no numeric fields
populated; on a non-empty input that leaves fewer than 2 readings after
truncation to the 48 most recent it returns
`{is_charging: false, reason: "Insufficient data"}`. -/
theorem claim_C7_empty_and_insufficient (data : List Reading)
    (baseline_usage high_usage_threshold : ℚ) (sustained_minutes : ℤ) :
    analyze_usage_pattern [] baseline_usage high_usage_threshold
        sustained_minutes =
      ([], { is_charging := false, reason := "No data available",
             average_power_kw := none, peak_power_kw := none,
             high_usage_periods := none, total_periods_analyzed := none,
             latest_reading_time := none }) ∧
    (data ≠ [] →
      ((List.insertionSort byStartDesc data).take 48).length < 2 →
      (analyze_usage_pattern data baseline_usage high_usage_threshold
          sustained_minutes).2 =
        { is_charging := false, reason := "Insufficient data",
          average_power_kw := none, peak_power_kw := none,
          high_usage_periods := none, total_periods_analyzed := none,
          latest_reading_time := none }) := by
  constructor
  · rfl
  · intro hne hlt
    cases data with
    | nil => exact absurd rfl hne
    | cons a rest =>
      simp only [analyze_usage_pattern, analyze_sorted]
      rw [if_pos hlt]

/-- C10: When the fetch returns no readings, `run_check` returns `None`
without calling the classifier, and no `run_check` return value is ever the
classifier's "No data available" result. -/
theorem claim_C10_driver_never_no_data (data : List Reading)
    (baseline_usage high_usage_threshold : ℚ) (sustained_minutes : ℤ) :
    run_check [] baseline_usage high_usage_threshold sustained_minutes = none ∧
    run_check data baseline_usage high_usage_threshold sustained_minutes ≠
      some { is_charging := false, reason := "No data available",
             average_power_kw := none, peak_power_kw := none,
             high_usage_periods := none, total_periods_analyzed := none,
             latest_reading_time := none } := by
  constructor
  · rfl
  · cases data with
    | nil => simp [run_check]
    | cons a rest =>
      intro h
      simp only [run_check, analyze_usage_pattern, analyze_sorted,
        Option.some.injEq] at h
      by_cases hlt :
          ((List.insertionSort byStartDesc (a :: rest)).take 48).length < 2
      · rw [if_pos hlt] at h
        simp at h
      · rw [if_neg hlt] at h
        simp [Analysis.mk.injEq] at h

/-- C2: With `last_alert_time` set (to a positive clock value, as
`time.time()` always returns), a `send_alert` call inside the cooldown
suppresses the dispatch and leaves the state unchanged, and a call at or
past the cooldown is eligible to dispatch (it dispatches exactly when the
Twilio call succeeds).  Consequently two `is_charging = true` results pushed
through the notification step less than `cooldown` apart yield exactly one
dispatch, and two at least `cooldown` apart yield two dispatches. -/
theorem claim_C2_cooldown (alert_cooldown t now now1 now2 : ℚ)
    (twilio_send_ok : Bool) (a : Analysis)
    (ht : 0 < t) (hn1 : 0 < now1) (ha : a.is_charging = true) :
    (now - t < alert_cooldown →
      send_alert alert_cooldown (some t) now twilio_send_ok a =
        { last_alert_time := some t, returned := none, dispatched := false }) ∧
    (alert_cooldown ≤ now - t →
      (send_alert alert_cooldown (some t) now twilio_send_ok a).dispatched =
        twilio_send_ok) ∧
    (now2 - now1 < alert_cooldown →
      (maybe_notify alert_cooldown none now1 true a).dispatched = true ∧
      (maybe_notify alert_cooldown
          (maybe_notify alert_cooldown none now1 true a).last_alert_time
          now2 true a).dispatched = false) ∧
    (alert_cooldown ≤ now2 - now1 →
      (maybe_notify alert_cooldown none now1 true a).dispatched = true ∧
      (maybe_notify alert_cooldown
          (maybe_notify alert_cooldown none now1 true a).last_alert_time
          now2 true a).dispatched = true) := by
  refine ⟨fun hc => ?_, fun hc => ?_, fun hc => ?_, fun hc => ?_⟩
  · simp [send_alert, ht.ne', hc]
  · cases twilio_send_ok <;> simp [send_alert, not_lt.mpr hc]
  · constructor
    · simp [maybe_notify, ha, send_alert]
    · simp [maybe_notify, ha, send_alert, hn1.ne', hc]
  · constructor
    · simp [maybe_notify, ha, send_alert]
    · simp [maybe_notify, ha, send_alert, not_lt.mpr hc]

/-- Witness for C2 at concrete times (cooldown 3600s). -/
theorem claim_C2_witness :
    (0 : ℚ) < 1000 ∧ (0 : ℚ) < 100 ∧ chargingExample.is_charging = true ∧
    (((2000 : ℚ) - 1000 < 3600 →
      send_alert 3600 (some 1000) 2000 true chargingExample =
        { last_alert_time := some 1000, returned := none, dispatched := false }) ∧
    ((3600 : ℚ) ≤ 2000 - 1000 →
      (send_alert 3600 (some 1000) 2000 true chargingExample).dispatched = true) ∧
    ((200 : ℚ) - 100 < 3600 →
      (maybe_notify 3600 none 100 true chargingExample).dispatched = true ∧
      (maybe_notify 3600
          (maybe_notify 3600 none 100 true chargingExample).last_alert_time
          200 true chargingExample).dispatched = false) ∧
    ((3600 : ℚ) ≤ 200 - 100 →
      (maybe_notify 3600 none 100 true chargingExample).dispatched = true ∧
      (maybe_notify 3600
          (maybe_notify 3600 none 100 true chargingExample).last_alert_time
          200 true chargingExample).dispatched = true)) :=
  ⟨by norm_num, by norm_num, rfl,
    claim_C2_cooldown 3600 1000 2000 100 200 true chargingExample
      (by norm_num) (by norm_num) rfl⟩

/-- C3: When the Twilio dispatch raises, `send_alert` catches the failure
(returning `None` rather than crashing) and `last_alert_time` keeps its
prior value; `last_alert_time` is assigned (necessarily to the current
time) only when the dispatch call completed successfully. -/
theorem claim_C3_failure_leaves_state (alert_cooldown now : ℚ)
    (last : Option ℚ) (a : Analysis) (twilio_send_ok : Bool) :
    ((send_alert alert_cooldown last now false a).last_alert_time = last ∧
     (send_alert alert_cooldown last now false a).returned = none ∧
     (send_alert alert_cooldown last now false a).dispatched = false) ∧
    ((send_alert alert_cooldown last now twilio_send_ok a).last_alert_time ≠ last →
      twilio_send_ok = true ∧
      (send_alert alert_cooldown last now twilio_send_ok a).dispatched = true ∧
      (send_alert alert_cooldown last now twilio_send_ok a).last_alert_time =
        some now) := by
  constructor
  · cases last with
    | none => simp [send_alert]
    | some t =>
      by_cases hc : t ≠ 0 ∧ now - t < alert_cooldown <;> simp [send_alert, hc]
  · intro hne
    cases last with
    | none =>
      cases twilio_send_ok with
      | false => simp [send_alert] at hne
      | true => simp [send_alert] at hne ⊢
    | some t =>
      by_cases hc : t ≠ 0 ∧ now - t < alert_cooldown
      · simp [send_alert, hc] at hne
      · cases twilio_send_ok with
        | false => simp [send_alert, hc] at hne
        | true => simp [send_alert, hc] at hne ⊢

/-- C4 counterexample: a confirmed-successful dispatch through the
notification step returns Python `None` (modelled `none`), not the boolean
`True` the claim requires. -/
theorem claim_C4_counterexample :
    (maybe_notify 3600 none 100 true chargingExample).dispatched = true ∧
    (maybe_notify 3600 none 100 true chargingExample).returned ≠ some true := by
  constructor <;> decide

/-- C4 amended: `send_alert` always returns `None` — never a boolean, even
on a confirmed successful dispatch; dispatch success is recorded only in
`last_alert_time`.  The `is_charging = false` guard lives in `run_check`,
which then does not call `send_alert`, so nothing is dispatched and the
cooldown state is untouched. -/
theorem claim_C4_amended (alert_cooldown now : ℚ) (last : Option ℚ)
    (twilio_send_ok : Bool) (a : Analysis) :
    (send_alert alert_cooldown last now twilio_send_ok a).returned = none ∧
    (maybe_notify alert_cooldown last now twilio_send_ok a).returned = none ∧
    (a.is_charging = false →
      maybe_notify alert_cooldown last now twilio_send_ok a =
        { last_alert_time := last, returned := none, dispatched := false }) := by
  refine ⟨?_, ?_, fun hf => ?_⟩
  · cases last with
    | none => by_cases h : twilio_send_ok <;> simp [send_alert, h]
    | some t =>
      by_cases hc : t ≠ 0 ∧ now - t < alert_cooldown
      · simp [send_alert, hc]
      · by_cases h : twilio_send_ok <;> simp [send_alert, hc, h]
  · rw [maybe_notify]
    by_cases hch : a.is_charging
    · rw [if_pos hch]
      cases last with
      | none => by_cases h : twilio_send_ok <;> simp [send_alert, h]
      | some t =>
        by_cases hc : t ≠ 0 ∧ now - t < alert_cooldown
        · simp [send_alert, hc]
        · by_cases h : twilio_send_ok <;> simp [send_alert, hc, h]
    · rw [if_neg hch]
  · simp [maybe_notify, hf]

/-- C5 counterexample: `analyze_usage_pattern` mutates the caller's list —
on an ascending two-reading input the list afterwards is in a different
order than the caller supplied. -/
theorem claim_C5_counterexample :
    (analyze_usage_pattern [(⟨0, 1, 1⟩ : Reading), ⟨1, 2, 1⟩] 0.5 30 240).1 ≠
      [(⟨0, 1, 1⟩ : Reading), ⟨1, 2, 1⟩] := by
  decide

/-- C5 amended: `analyze_usage_pattern` does mutate the caller's sequence —
it sorts it in place, leaving a permutation of the original elements in
descending `interval_start` order — and the result depends only on the
arguments: a second call on the mutated list returns the identical analysis
and leaves the list unchanged. -/
theorem claim_C5_amended (data : List Reading)
    (baseline_usage high_usage_threshold : ℚ) (sustained_minutes : ℤ) :
    (analyze_usage_pattern data baseline_usage high_usage_threshold
        sustained_minutes).1.Perm data ∧
    (analyze_usage_pattern data baseline_usage high_usage_threshold
        sustained_minutes).1.Sorted byStartDesc ∧
    analyze_usage_pattern
        (analyze_usage_pattern data baseline_usage high_usage_threshold
          sustained_minutes).1 baseline_usage high_usage_threshold
        sustained_minutes =
      analyze_usage_pattern data baseline_usage high_usage_threshold
        sustained_minutes := by
  cases data with
  | nil => exact ⟨List.Perm.refl _, List.sorted_nil, rfl⟩
  | cons a rest =>
    have hfst : (analyze_usage_pattern (a :: rest) baseline_usage
        high_usage_threshold sustained_minutes).1 =
        List.insertionSort byStartDesc (a :: rest) := by
      simp only [analyze_usage_pattern, analyze_sorted]
      by_cases hlt :
          ((List.insertionSort byStartDesc (a :: rest)).take 48).length < 2
      · rw [if_pos hlt]
      · rw [if_neg hlt]
    refine ⟨?_, ?_, ?_⟩
    · rw [hfst]; exact List.perm_insertionSort _ _
    · rw [hfst]; exact List.sorted_insertionSort _ _
    · rw [hfst]
      have hne : List.insertionSort byStartDesc (a :: rest) ≠ [] := by
        intro h
        have := (List.perm_insertionSort byStartDesc (a :: rest)).symm
        rw [h] at this
        exact List.cons_ne_nil a rest this.eq_nil
      obtain ⟨b, t, hbt⟩ := List.exists_cons_of_ne_nil hne
      have hidem : List.insertionSort byStartDesc
          (List.insertionSort byStartDesc (a :: rest)) =
          List.insertionSort byStartDesc (a :: rest) :=
        (List.sorted_insertionSort byStartDesc (a :: rest)).insertionSort_eq
      rw [hbt]
      simp only [analyze_usage_pattern]
      rw [← hbt, hidem, hbt]

/-- C6: `analyze_usage_pattern` is order-independent — two inputs that are
permutations of each other, with pairwise-distinct `interval_start` keys,
produce identical results (the internal descending sort normalises the
order). -/
theorem claim_C6_order_independent (d₁ d₂ : List Reading)
    (baseline_usage high_usage_threshold : ℚ) (sustained_minutes : ℤ)
    (hp : d₁.Perm d₂) (hnd : (d₁.map Reading.interval_start).Nodup) :
    analyze_usage_pattern d₁ baseline_usage high_usage_threshold
        sustained_minutes =
      analyze_usage_pattern d₂ baseline_usage high_usage_threshold
        sustained_minutes := by
  cases d₁ with
  | nil =>
    have : d₂ = [] := hp.symm.eq_nil
    rw [this]
  | cons a t =>
    cases d₂ with
    | nil => exact absurd hp.eq_nil (List.cons_ne_nil a t)
    | cons b t₂ =>
      have hs : List.insertionSort byStartDesc (a :: t) =
          List.insertionSort byStartDesc (b :: t₂) :=
        insertionSort_eq_of_perm hp hnd
      simp only [analyze_usage_pattern]
      rw [hs]

/-- Witness for C6: the same two readings in both orders give the same
result. -/
theorem claim_C6_witness :
    ([(⟨0, 1, 1⟩ : Reading), ⟨1, 2, 2⟩].Perm [(⟨1, 2, 2⟩ : Reading), ⟨0, 1, 1⟩]) ∧
    (([(⟨0, 1, 1⟩ : Reading), ⟨1, 2, 2⟩].map Reading.interval_start).Nodup) ∧
    analyze_usage_pattern [(⟨0, 1, 1⟩ : Reading), ⟨1, 2, 2⟩] 0.5 30 240 =
      analyze_usage_pattern [(⟨1, 2, 2⟩ : Reading), ⟨0, 1, 1⟩] 0.5 30 240 :=
  ⟨List.Perm.swap _ _ _, by decide,
    claim_C6_order_independent _ _ 0.5 30 240 (List.Perm.swap _ _ _) (by decide)⟩

/-- C8 counterexample: at 01:00 on day 2 (seconds `2*86400 + 3600`), the
window requested by `get_consumption_data(hours_back=24)` is not
`[now - 48h, now - 24h)`: the code truncates the end of the window to
midnight of the day containing `now - 24h`. -/
theorem claim_C8_counterexample :
    get_consumption_window (2 * 86400 + 3600) 24 ≠
      ((2 * 86400 + 3600) - 48 * 3600, (2 * 86400 + 3600) - 24 * 3600) := by
  decide

/-- C8 amended: for every current time, the fetch with `hours_back = 24`
requests the 24-hour window that ends at **midnight of the calendar day
containing `now - 24 hours`** (so `period_to` is a day boundary at most 24
hours behind `now - 24h`), and `period_from = period_to - 24 hours`; the
ends equal `now - 48h` / `now - 24h` only when `now` is exactly midnight. -/
theorem claim_C8_amended (now : ℤ) :
    (get_consumption_window now 24).2 % 86400 = 0 ∧
    (get_consumption_window now 24).2 ≤ now - 24 * 3600 ∧
    now - 24 * 3600 < (get_consumption_window now 24).2 + 86400 ∧
    (get_consumption_window now 24).1 =
      (get_consumption_window now 24).2 - 24 * 3600 := by
  refine ⟨?_, ?_, ?_, ?_⟩ <;>
    (simp only [get_consumption_window, truncToDay]; try omega)

/-- C9 counterexample: an environment in which every required credential is
present and non-empty, yet `load_config` does not return the configuration
without error — the `int()` call on `SUSTAINED_MINUTES` raises its parse
`ValueError` while the config dict is being built. -/
theorem claim_C9_counterexample :
    missing_keys envBadTunable = [] ∧
    load_config envBadTunable =
      Except.error "invalid literal for int() with base 10: 'abc'" := by
  exact ⟨by decide, by rfl⟩

/-- C9 amended: the missing-keys list collects exactly the required
credential keys that are absent or empty.  Provided the four tunable
variables parse under `float()`/`int()` (as they do when unset, since the
defaults parse): with at least one required credential missing,
`load_config` raises the error enumerating exactly the missing fields and
the process exits with status 1; with none missing it returns the
configuration (carrying the environment's credentials) without error.  When
a tunable fails its parse, `load_config` instead raises that parse error —
before the credential check — and the process exits with status 1. -/
theorem claim_C9_amended (env : Env) (rest_raises : Bool) :
    (∀ k, k ∈ missing_keys env ↔
      k ∈ required_keys ∧
        (config_get env k = none ∨ config_get env k = some "")) ∧
    (tunables_parse env = true →
      missing_keys env ≠ [] →
        load_config env = Except.error
          ("Missing required configuration: " ++
            String.intercalate ", " (missing_keys env)) ∧
        main_exit_code env rest_raises = 1) ∧
    (tunables_parse env = true → missing_keys env = [] →
      ∃ c, load_config env = Except.ok c ∧
        c.octopus_api_key = env.octopus_api_key ∧
        c.meter_mpan = env.meter_mpan ∧
        c.meter_serial = env.meter_serial ∧
        c.twilio_account_sid = env.twilio_account_sid ∧
        c.twilio_auth_token = env.twilio_auth_token ∧
        c.twilio_from_number = env.twilio_from_number ∧
        c.twilio_to_number = env.twilio_to_number) ∧
    (tunables_parse env = false →
      (∃ m, load_config env = Except.error m) ∧
      main_exit_code env rest_raises = 1) := by
  refine ⟨fun k => ?_, fun hp hm => ?_, fun hp hm => ?_, fun hp => ?_⟩
  · constructor
    · intro hk
      have hmf := List.mem_filter.mp hk
      refine ⟨hmf.1, ?_⟩
      have hd := of_decide_eq_true hmf.2
      cases hcg : config_get env k with
      | none => exact Or.inl rfl
      | some s =>
        rw [hcg] at hd
        have hs : s = "" := hd
        exact Or.inr (by rw [hs])
    · rintro ⟨hk, hv⟩
      apply List.mem_filter.mpr
      refine ⟨hk, decide_eq_true ?_⟩
      rcases hv with h | h <;> rw [h] <;> rfl
  · simp only [tunables_parse, Bool.and_eq_true, Option.isSome_iff_exists] at hp
    obtain ⟨⟨⟨p1, p2⟩, p3⟩, p4⟩ := hp
    obtain ⟨hu, h1⟩ := p1
    obtain ⟨sm, h2⟩ := p2
    obtain ⟨bu, h3⟩ := p3
    obtain ⟨ac, h4⟩ := p4
    have hne : (missing_keys env).isEmpty = false := by
      cases hmk : missing_keys env with
      | nil => exact absurd hmk hm
      | cons x xs => rfl
    have hl := load_config_parsed env hu bu sm ac h1 h2 h3 h4
    rw [hne] at hl
    simp only [Bool.false_eq_true, if_false] at hl
    refine ⟨hl, ?_⟩
    unfold main_exit_code
    rw [hl]
  · simp only [tunables_parse, Bool.and_eq_true, Option.isSome_iff_exists] at hp
    obtain ⟨⟨⟨p1, p2⟩, p3⟩, p4⟩ := hp
    obtain ⟨hu, h1⟩ := p1
    obtain ⟨sm, h2⟩ := p2
    obtain ⟨bu, h3⟩ := p3
    obtain ⟨ac, h4⟩ := p4
    have hl := load_config_parsed env hu bu sm ac h1 h2 h3 h4
    rw [hm] at hl
    simp only [List.isEmpty_nil, if_true] at hl
    exact ⟨_, hl, rfl, rfl, rfl, rfl, rfl, rfl, rfl⟩
  · refine ⟨load_config_parse_fail env hp, ?_⟩
    obtain ⟨m, hm2⟩ := load_config_parse_fail env hp
    unfold main_exit_code
    rw [hm2]
